import Mathlib

/-!
Shallow embedding of the whiz_poz_back_office salary back office.

The repository has three core pieces:
* a salary controller exporting `getSalaries`, `addSalary`, `deleteSalary`
  (src/unnamed/part_000);
* a mongoose schema `salarySchema` with required/enum/default validation
  (src/models/Salary.js, first document);
* a server bootstrap with a memoized `connectDB` and a Vercel request guard
  (src/models/Salary.js, third document).

Dates and timestamps are modelled as `Nat` milliseconds since epoch; the
document store is a `List SalaryRecord`; mongoose validation is an explicit
function; the HTTP layer is a `Response` value.
-/

/-- A session user; the controller reads `req.session.user.name`. -/
structure User where
  name : String
deriving DecidableEq, Repr

/-- A validated, stored salary document, mirroring `salarySchema`:
`salaryId`, `employeeName`, `amount`, `date` required; `type` enumerated
with default `full`; `notes` and `recordedBy` optional; `createdAt`
defaulted to the save time. -/
structure SalaryRecord where
  salaryId : String
  employeeName : String
  amount : Int
  type : String
  date : Nat
  notes : Option String
  recordedBy : Option String
  createdAt : Nat
deriving DecidableEq, Repr

/-- The document handed to `new Salary({...})` before mongoose validation:
every field may be absent (`undefined` in JS). -/
structure SalaryDoc where
  salaryId : Option String
  employeeName : Option String
  amount : Option Int
  type : Option String
  date : Option Nat
  notes : Option String
  recordedBy : Option String
  createdAt : Option Nat
deriving DecidableEq, Repr

/-- The request body of `POST /salaries`. The controller destructures only
`employeeName, amount, type, date, notes`; the remaining fields model other
body keys a client could send (`salaryId`, `recordedBy`, `createdAt`, and
arbitrary extras), which the controller never reads. -/
structure ReqBody where
  employeeName : Option String
  amount : Option Int
  type : Option String
  date : Option Nat
  notes : Option String
  salaryId : Option String
  recordedBy : Option String
  createdAt : Option Nat
  extra : List (String × String)
deriving DecidableEq, Repr

abbrev Store := List SalaryRecord

/-- HTTP-level outcome of a controller handler. -/
inductive Response
  | renderSalaries (title : String) (salaries : List SalaryRecord)
  | redirect (path : String)
  | serverError
deriving DecidableEq, Repr

/-- Store-layer failure of `newSalary.save()`. -/
inductive SaveError
  | validationError
  | uniqueViolation
deriving DecidableEq, Repr

/-- Failure of the whole create handler, including the `TypeError` thrown by
`req.session.user.name` when no session user exists. -/
inductive AddError
  | missingUser
  | validationError
  | uniqueViolation
deriving DecidableEq, Repr

/-- Mongoose defaults: `type` defaults to `"full"`, `createdAt` to
`Date.now`. -/
def applyDefaults (d : SalaryDoc) (now : Nat) : SalaryDoc :=
  { d with
    type := some (d.type.getD "full")
    createdAt := some (d.createdAt.getD now) }

/-- Mongoose validation of `salarySchema`: `salaryId`, `employeeName`,
`amount`, `date` required (a required string must be non-empty), `type`
restricted to `full`/`advance`. Returns the validated record. -/
def validateSalary (d : SalaryDoc) : Option SalaryRecord :=
  match d.salaryId, d.employeeName, d.amount, d.type, d.date, d.createdAt with
  | some sid, some en, some am, some ty, some dt, some ca =>
    if sid.length ≠ 0 ∧ en.length ≠ 0 ∧ (ty = "full" ∨ ty = "advance") then
      some { salaryId := sid, employeeName := en, amount := am, type := ty,
             date := dt, notes := d.notes, recordedBy := d.recordedBy,
             createdAt := ca }
    else none
  | _, _, _, _, _, _ => none

/-- `newSalary.save()`: validate the document, enforce the unique index on
`salaryId`, then append the record to the collection. -/
def saveSalary (store : Store) (d : SalaryDoc) (now : Nat) :
    Except SaveError (SalaryRecord × Store) :=
  match validateSalary (applyDefaults d now) with
  | none => .error .validationError
  | some r =>
    if store.any (fun s => s.salaryId == r.salaryId) then
      .error .uniqueViolation
    else
      .ok (r, store ++ [r])

/-- The document literal built inside `addSalary`:
`salaryId: SAL${Date.now()}`, the five destructured body fields,
`date: date || new Date()`, `recordedBy: req.session.user.name`. -/
def mkSalaryDoc (now : Nat) (body : ReqBody) (userName : String) : SalaryDoc :=
  { salaryId := some ("SAL" ++ toString now)
    employeeName := body.employeeName
    amount := body.amount
    type := body.type
    date := some (body.date.getD now)
    notes := body.notes
    recordedBy := some userName
    createdAt := none }

/-- Core of `addSalary`: dereference the session user, build the document,
save it. -/
def addSalaryCore (store : Store) (sess : Option User) (now : Nat)
    (body : ReqBody) : Except AddError (SalaryRecord × Store) :=
  match sess with
  | none => .error .missingUser
  | some u =>
    match saveSalary store (mkSalaryDoc now body u.name) now with
    | .error .validationError => .error .validationError
    | .error .uniqueViolation => .error .uniqueViolation
    | .ok rs => .ok rs

/-- The `addSalary` handler: on success redirect to `/salaries`; any thrown
error is caught and answered with HTTP 500, leaving the store untouched. -/
def addSalary (store : Store) (sess : Option User) (now : Nat)
    (body : ReqBody) : Response × Store :=
  match addSalaryCore store sess now body with
  | .ok (_, store') => (.redirect "/salaries", store')
  | .error _ => (.serverError, store)

/-- Sort order used by `Salary.find().sort({ date: -1 })`: most recent
date first. -/
def dateDesc (a b : SalaryRecord) : Prop := b.date ≤ a.date

instance : DecidableRel dateDesc := fun a b => Nat.decLe b.date a.date

instance : IsTotal SalaryRecord dateDesc :=
  ⟨fun a b => Nat.le_total b.date a.date⟩

instance : IsTrans SalaryRecord dateDesc :=
  ⟨fun _ _ _ hab hbc => Nat.le_trans hbc hab⟩

/-- `getSalaries` data access: `Salary.find().sort({ date: -1 })` — all
records, sorted by `date` descending, no filtering, no pagination. -/
def getSalaries (store : Store) : List SalaryRecord :=
  List.insertionSort dateDesc store

/-- The `getSalaries` handler renders the list page with the sorted
records. -/
def getSalariesHandler (store : Store) : Response :=
  .renderSalaries "Salaries" (getSalaries store)

/-- `Salary.findOneAndDelete({ salaryId: id })`: remove the first document
whose `salaryId` matches; no error when nothing matches. -/
def findOneAndDelete (store : Store) (sid : String) : Store :=
  match store with
  | [] => []
  | r :: rs => if r.salaryId == sid then rs else r :: findOneAndDelete rs sid

/-- The `deleteSalary` handler: delete by the `id` path parameter, then
redirect to `/salaries` (also on a miss). -/
def deleteSalary (store : Store) (idParam : String) : Response × Store :=
  (.redirect "/salaries", findOneAndDelete store idParam)

/-- A database connection handle (the resolved `mongoose` object). -/
structure Conn where
  id : Nat
deriving DecidableEq, Repr

/-- Outcome a connection attempt settles to: the promise resolves with a
handle or rejects. -/
inductive ConnOutcome
  | success (c : Conn)
  | failure
deriving DecidableEq, Repr

/-- The process-wide `cached = global.mongoose = { conn, promise }` pair:
the final handle and the memoized attempt (promise) itself. -/
structure Cached where
  conn : Option Conn
  promise : Option ConnOutcome
deriving DecidableEq, Repr

/-- Environment of one `connectDB()` call: `MONGODB_URI`, the Vercel flag,
the outcome `mongoose.connect(mongoUri, opts)` would settle to, and the
outcome of creating and connecting to the in-memory fallback server. -/
structure ConnEnv where
  mongoUri : Option String
  isVercel : Bool
  connOutcome : ConnOutcome
  memOutcome : ConnOutcome
deriving DecidableEq, Repr

/-- The local-development fallback: start a `MongoMemoryServer`, connect to
it, cache promise and handle. `att` counts `mongoose.connect` attempts made
so far in this call; the fallback always makes one more. -/
def fallbackMem (env : ConnEnv) (st : Cached) (att : Nat) :
    Option Conn × Cached × Nat :=
  match env.memOutcome with
  | .success c =>
    (some c, { conn := some c, promise := some (.success c) }, att + 1)
  | .failure => (none, { st with promise := some .failure }, att + 1)

/-- `connectDB()`: return the cached handle if present; bail out on Vercel
without a URI; otherwise reuse the cached promise (or start one attempt),
await it, and on failure either bail (Vercel) or fall back to the
in-memory server. The third component counts new `mongoose.connect`
attempts initiated by this call. -/
def connectDB (env : ConnEnv) (st : Cached) : Option Conn × Cached × Nat :=
  match st.conn with
  | some c => (some c, st, 0)
  | none =>
    match env.mongoUri with
    | none =>
      if env.isVercel then (none, st, 0)
      else fallbackMem env st 0
    | some _ =>
      let pa : ConnOutcome × Nat :=
        match st.promise with
        | some p => (p, 0)
        | none => (env.connOutcome, 1)
      let st1 : Cached := { st with promise := some pa.1 }
      match pa.1 with
      | .success c => (some c, { st1 with conn := some c }, pa.2)
      | .failure =>
        if env.isVercel then (none, st1, pa.2)
        else fallbackMem env st1 pa.2

/-- Outcome of the Vercel request guard middleware. -/
inductive GuardResult
  | forward
  | setupRequired503
deriving DecidableEq, Repr

/-- The request guard (`app.use` before the routes): outside Vercel always
`next()`; on Vercel forward when `readyState` is 1; when it is 2 await the
in-flight connection (after which the state is `readyAfter`) and forward
if now connected; otherwise answer 503 Setup Required. -/
def dbGuard (isVercel : Bool) (ready readyAfter : Nat) : GuardResult :=
  if !isVercel then .forward
  else if ready = 1 then .forward
  else if ready = 2 ∧ readyAfter = 1 then .forward
  else if (if ready = 2 then readyAfter else ready) ≠ 1 then .setupRequired503
  else .forward

/-- A record used as concrete test data in witnesses. -/
def rec0 : SalaryRecord :=
  { salaryId := "SAL1", employeeName := "Alice", amount := 500,
    type := "advance", date := 3, notes := none, recordedBy := some "Admin",
    createdAt := 5 }

/-- A second record used as concrete test data in witnesses. -/
def rec1 : SalaryRecord :=
  { salaryId := "SAL2", employeeName := "Bob", amount := 700,
    type := "full", date := 9, notes := some "n", recordedBy := none,
    createdAt := 9 }

/-- A request body used as concrete test data in witnesses: valid fields,
`date` omitted. -/
def body0 : ReqBody :=
  { employeeName := some "Alice", amount := some 500, type := some "advance",
    date := none, notes := none, salaryId := none, recordedBy := none,
    createdAt := none, extra := [] }

/-- Like `body0` but with client-supplied `salaryId`, `recordedBy`,
`createdAt` and an extra key — fields the controller must ignore. -/
def bodyA : ReqBody :=
  { body0 with
    salaryId := some "SALHACK"
    recordedBy := some "Eve"
    createdAt := some 999
    extra := [("x", "y")] }

/-- A body whose `type` is outside the enumeration. -/
def bodyBad : ReqBody := { body0 with type := some "bonus" }

/-- A body whose `type` is omitted. -/
def bodyNoType : ReqBody := { body0 with type := none }

/-- The record produced by a successful create from `body0` at time 7. -/
def recW : SalaryRecord :=
  { salaryId := "SAL7", employeeName := "Alice", amount := 500,
    type := "advance", date := 7, notes := none, recordedBy := some "Admin",
    createdAt := 7 }

/-- A connection handle used as concrete test data in witnesses. -/
def c0 : Conn := { id := 1 }

/-- A connection environment used as concrete test data in witnesses. -/
def env0 : ConnEnv :=
  { mongoUri := some "mongodb://localhost", isVercel := false,
    connOutcome := .success c0, memOutcome := .success c0 }

/-- Shape of a successful validation: every stored field comes from the
corresponding document field and the enum/required checks hold. -/
theorem validateSalary_eq_some (d : SalaryDoc) (r : SalaryRecord)
    (h : validateSalary d = some r) :
    d.salaryId = some r.salaryId ∧ d.employeeName = some r.employeeName ∧
    d.amount = some r.amount ∧ d.type = some r.type ∧ d.date = some r.date ∧
    d.notes = r.notes ∧ d.recordedBy = r.recordedBy ∧
    d.createdAt = some r.createdAt ∧ r.salaryId.length ≠ 0 ∧
    r.employeeName.length ≠ 0 ∧ (r.type = "full" ∨ r.type = "advance") := by
  unfold validateSalary at h
  split at h
  · next sid en am ty dt ca heq1 heq2 heq3 heq4 heq5 heq6 =>
    split at h
    · next hcond =>
      injection h with h
      subst h
      simp_all
    · exact absurd h (by simp)
  · exact absurd h (by simp)

/-- Shape of a successful `save`: the record is the validated document, no
stored record shares its `salaryId`, and it is appended to the store. -/
theorem saveSalary_ok (store : Store) (d : SalaryDoc) (now : Nat)
    (r : SalaryRecord) (store' : Store)
    (h : saveSalary store d now = Except.ok (r, store')) :
    validateSalary (applyDefaults d now) = some r ∧
    store.any (fun s => s.salaryId == r.salaryId) = false ∧
    store' = store ++ [r] := by
  unfold saveSalary at h
  split at h
  · exact absurd h (by simp)
  · next rv hv =>
    split at h
    · exact absurd h (by simp)
    · next hany =>
      injection h with h
      rw [Prod.mk.injEq] at h
      obtain ⟨rfl, rfl⟩ := h
      exact ⟨hv, by simpa using hany, rfl⟩

/-- Shape of a successful create: the session user exists, the built
document validated to the stored record, its id is fresh, and the store
grew by exactly that record. -/
theorem addSalaryCore_ok (store : Store) (sess : Option User) (now : Nat)
    (body : ReqBody) (r : SalaryRecord) (store' : Store)
    (h : addSalaryCore store sess now body = Except.ok (r, store')) :
    ∃ u, sess = some u ∧
      validateSalary (applyDefaults (mkSalaryDoc now body u.name) now) =
        some r ∧
      store.any (fun s => s.salaryId == r.salaryId) = false ∧
      store' = store ++ [r] := by
  cases sess with
  | none => exact absurd h (by simp [addSalaryCore])
  | some u =>
    refine ⟨u, rfl, ?_⟩
    simp only [addSalaryCore] at h
    split at h
    · exact absurd h (by simp)
    · exact absurd h (by simp)
    · next rs hsv =>
      injection h with h
      subst h
      exact saveSalary_ok store _ now r store' hsv

/-- Claim C1: `getSalaries` returns all stored records — a permutation of
the store, so no filtering and no pagination — ordered by `date`
descending; ties in `date` are unconstrained by the ordering predicate. -/
theorem getSalaries_returns_all_sorted (store : Store) :
    List.Perm (getSalaries store) store ∧
    List.Sorted dateDesc (getSalaries store) :=
  ⟨List.perm_insertionSort dateDesc store,
   List.sorted_insertionSort dateDesc store⟩

/-- Claim C4: deleting a `salaryId` that matches no stored record raises no
error, leaves the store unchanged (so unchanged in size), and still
redirects to the list page. -/
theorem deleteSalary_miss_silent (store : Store) (sid : String)
    (h : ∀ s ∈ store, s.salaryId ≠ sid) :
    deleteSalary store sid = (Response.redirect "/salaries", store) := by
  unfold deleteSalary
  congr 1
  induction store with
  | nil => rfl
  | cons r rs ih =>
    have hr : r.salaryId ≠ sid := h r (List.mem_cons_self r rs)
    have : (r.salaryId == sid) = false := beq_eq_false_iff_ne.mpr hr
    simp only [findOneAndDelete, this, if_neg Bool.false_ne_true]
    rw [ih (fun s hs => h s (List.mem_cons_of_mem r hs))]

/-- Witness for C4 at a concrete store and a never-created id. -/
theorem deleteSalary_miss_silent_witness :
    deleteSalary [rec0, rec1] "SAL999" =
      (Response.redirect "/salaries", [rec0, rec1]) :=
  deleteSalary_miss_silent [rec0, rec1] "SAL999" (by decide)

/-- Claim C5: deleting a `salaryId` that exists (in a store whose ids are
pairwise distinct, the invariant the unique index maintains) removes
exactly that record — the store splits around it and the result is the
two surrounding segments, untouched — and the size drops by exactly one. -/
theorem deleteSalary_hit_removes_one (store : Store) (r : SalaryRecord)
    (sid : String) (hnd : (store.map SalaryRecord.salaryId).Nodup)
    (hr : r ∈ store) (hsid : r.salaryId = sid) :
    (findOneAndDelete store sid).length + 1 = store.length ∧
    ∃ l1 l2, store = l1 ++ r :: l2 ∧ findOneAndDelete store sid = l1 ++ l2 ∧
      deleteSalary store sid = (Response.redirect "/salaries", l1 ++ l2) := by
  induction store with
  | nil => exact absurd hr (List.not_mem_nil r)
  | cons x xs ih =>
    rw [List.map_cons, List.nodup_cons] at hnd
    by_cases hx : x.salaryId = sid
    · have hrx : r = x := by
        rcases List.mem_cons.mp hr with h | h
        · exact h
        · exfalso
          apply hnd.1
          rw [hx, ← hsid]
          exact List.mem_map_of_mem SalaryRecord.salaryId h
      have hdel : findOneAndDelete (x :: xs) sid = xs := by
        simp [findOneAndDelete, beq_iff_eq, hx]
      refine ⟨by simp [hdel], [], xs, by simp [hrx], hdel, ?_⟩
      simp [deleteSalary, hdel]
    · have hrx : r ∈ xs := by
        rcases List.mem_cons.mp hr with h | h
        · exact absurd (h ▸ hsid) hx
        · exact h
      obtain ⟨hlen, l1, l2, hsplit, hdel, _⟩ := ih hnd.2 hrx
      have hbe : (x.salaryId == sid) = false := beq_eq_false_iff_ne.mpr hx
      have hdelc : findOneAndDelete (x :: xs) sid =
          x :: findOneAndDelete xs sid := by
        simp [findOneAndDelete, hbe]
      refine ⟨by simp [hdelc, ← hlen], x :: l1, l2, by simp [hsplit], ?_, ?_⟩
      · simp [hdelc, hdel]
      · simp [deleteSalary, hdelc, hdel]

/-- Witness for C5: deleting `rec0`'s id from a two-record store. -/
theorem deleteSalary_hit_removes_one_witness :
    (findOneAndDelete [rec0, rec1] "SAL1").length + 1 = 2 ∧
    ∃ l1 l2, [rec0, rec1] = l1 ++ rec0 :: l2 ∧
      findOneAndDelete [rec0, rec1] "SAL1" = l1 ++ l2 ∧
      deleteSalary [rec0, rec1] "SAL1" =
        (Response.redirect "/salaries", l1 ++ l2) :=
  deleteSalary_hit_removes_one [rec0, rec1] rec0 "SAL1" (by decide) (by decide)
    (by decide)

/-- Claim C10: with no session user, `addSalary` throws on
`req.session.user.name` before any document is built or saved, so the
handler answers HTTP 500 and the store is exactly unchanged. -/
theorem addSalary_missing_session_atomic (store : Store) (now : Nat)
    (body : ReqBody) :
    addSalary store none now body = (Response.serverError, store) ∧
    addSalaryCore store none now body = Except.error AddError.missingUser := by
  constructor <;> rfl

/-- Claim C6: when the body omits `date`, a successful create stores the
record with `date` equal to the call time `now` (hence at or after it). -/
theorem addSalary_defaults_date (store : Store) (sess : Option User)
    (now : Nat) (body : ReqBody) (r : SalaryRecord) (store' : Store)
    (hdate : body.date = none)
    (hok : addSalaryCore store sess now body = Except.ok (r, store')) :
    r.date = now ∧ now ≤ r.date := by
  obtain ⟨u, -, hv, -, -⟩ := addSalaryCore_ok store sess now body r store' hok
  obtain ⟨-, -, -, -, hdt, -⟩ := validateSalary_eq_some _ r hv
  have hrd : r.date = now := by
    have := hdt.symm
    simp [applyDefaults, mkSalaryDoc, hdate] at this
    exact this
  exact ⟨hrd, hrd ▸ Nat.le_refl now⟩

/-- Witness for C6 at a concrete create with `date` omitted. -/
theorem addSalary_defaults_date_witness :
    addSalaryCore [] (some ⟨"Admin"⟩) 7 body0 = Except.ok (recW, [recW]) ∧
    recW.date = 7 ∧ 7 ≤ recW.date :=
  ⟨rfl, addSalary_defaults_date [] (some ⟨"Admin"⟩) 7 body0 recW [recW]
    rfl rfl⟩

/-- Claim C2: a successful create stores `salaryId = "SAL" + now` (decimal
milliseconds at call time), which is non-empty, starts with `"SAL"`, and
matches no existing record; and when the generated id does collide with a
stored one (and the document otherwise validates), `save` fails with the
unique-constraint violation instead of absorbing it. -/
theorem addSalary_salaryId_spec (store : Store) (sess : Option User)
    (now : Nat) (body : ReqBody) :
    (∀ r store', addSalaryCore store sess now body = Except.ok (r, store') →
      r.salaryId = "SAL" ++ toString now ∧ r.salaryId ≠ "" ∧
      (∃ t, r.salaryId = "SAL" ++ t) ∧ ∀ s ∈ store, s.salaryId ≠ r.salaryId) ∧
    (∀ u, sess = some u →
      (validateSalary (applyDefaults (mkSalaryDoc now body u.name) now)).isSome →
      (∃ s ∈ store, s.salaryId = "SAL" ++ toString now) →
      addSalaryCore store sess now body =
        Except.error AddError.uniqueViolation) := by
  constructor
  · intro r store' hok
    obtain ⟨u, -, hv, hany, -⟩ := addSalaryCore_ok store sess now body r store' hok
    obtain ⟨hsid, -, -, -, -, -, -, -, hlen, -, -⟩ :=
      validateSalary_eq_some _ r hv
    have hid : r.salaryId = "SAL" ++ toString now := by
      have := hsid.symm
      simp [applyDefaults, mkSalaryDoc] at this
      exact this
    refine ⟨hid, ?_, ⟨toString now, hid⟩, ?_⟩
    · intro he
      apply hlen
      rw [he]
      rfl
    · simp only [List.any_eq_false, beq_iff_eq] at hany
      intro s hs he
      exact hany s hs (he.symm ▸ rfl)
  · intro u hsess hvsome hcol
    subst hsess
    obtain ⟨rv, hv⟩ := Option.isSome_iff_exists.mp hvsome
    obtain ⟨hsid, -⟩ := validateSalary_eq_some _ rv hv
    have hid : rv.salaryId = "SAL" ++ toString now := by
      have := hsid.symm
      simp [applyDefaults, mkSalaryDoc] at this
      exact this
    have hany : store.any (fun s => s.salaryId == rv.salaryId) = true := by
      obtain ⟨s, hs, hseq⟩ := hcol
      exact List.any_eq_true.mpr ⟨s, hs, by simp [hseq, hid]⟩
    simp only [addSalaryCore, saveSalary]
    rw [hv]
    simp [hany]

/-- Witness for C2: a fresh create at time 7, then a colliding create
against a store already holding `salaryId = "SAL7"`. -/
theorem addSalary_salaryId_spec_witness :
    (recW.salaryId = "SAL" ++ toString 7 ∧ recW.salaryId ≠ "" ∧
      (∃ t, recW.salaryId = "SAL" ++ t) ∧
      ∀ s ∈ ([] : Store), s.salaryId ≠ recW.salaryId) ∧
    addSalaryCore [recW] (some ⟨"Admin"⟩) 7 body0 =
      Except.error AddError.uniqueViolation :=
  ⟨(addSalary_salaryId_spec [] (some ⟨"Admin"⟩) 7 body0).1 recW [recW] rfl,
   (addSalary_salaryId_spec [recW] (some ⟨"Admin"⟩) 7 body0).2 ⟨"Admin"⟩ rfl
     (by decide) ⟨recW, by simp, by decide⟩⟩

/-- Claim C3: with a session user present, a body whose `type` is present
and outside the enumeration makes the create fail with a validation error
(HTTP 500) and leaves the store exactly unchanged; a body without `type`
stores the record with `type = "full"`. -/
theorem addSalary_type_enum (store : Store) (u : User) (now : Nat)
    (body : ReqBody) :
    (∀ t, body.type = some t → t ≠ "full" → t ≠ "advance" →
      addSalaryCore store (some u) now body =
        Except.error AddError.validationError ∧
      addSalary store (some u) now body = (Response.serverError, store)) ∧
    (body.type = none →
      ∀ r store', addSalaryCore store (some u) now body =
        Except.ok (r, store') → r.type = "full") := by
  constructor
  · intro t ht htf hta
    have hv : validateSalary (applyDefaults (mkSalaryDoc now body u.name) now)
        = none := by
      unfold validateSalary applyDefaults mkSalaryDoc
      simp only [ht]
      cases body.employeeName <;> cases body.amount <;>
        simp [Option.getD, htf, hta]
    have hcore : addSalaryCore store (some u) now body =
        Except.error AddError.validationError := by
      simp only [addSalaryCore, saveSalary]
      rw [hv]
    exact ⟨hcore, by simp [addSalary, hcore]⟩
  · intro ht r store' hok
    obtain ⟨u', hu', hv, -, -⟩ :=
      addSalaryCore_ok store (some u) now body r store' hok
    obtain ⟨-, -, -, hty, -⟩ := validateSalary_eq_some _ r hv
    have := hty.symm
    simp [applyDefaults, mkSalaryDoc, ht] at this
    exact this

/-- Witness for C3: a concrete rejected create with `type = "bonus"` and a
concrete accepted create with `type` omitted that stores `"full"`. -/
theorem addSalary_type_enum_witness :
    (addSalaryCore [] (some ⟨"Admin"⟩) 7 bodyBad =
        Except.error AddError.validationError ∧
      addSalary [] (some ⟨"Admin"⟩) 7 bodyBad = (Response.serverError, [])) ∧
    ({ recW with type := "full" } : SalaryRecord).type = "full" :=
  ⟨(addSalary_type_enum [] ⟨"Admin"⟩ 7 bodyBad).1 "bonus" rfl (by decide)
      (by decide),
   (addSalary_type_enum [] ⟨"Admin"⟩ 7 bodyNoType).2 rfl
     { recW with type := "full" } [{ recW with type := "full" }] rfl⟩

/-- Claim C9: `addSalary` reads only `employeeName`, `amount`, `type`,
`date`, `notes` from the body — two bodies agreeing on those five fields
(whatever their `salaryId`, `recordedBy`, `createdAt` or extra keys) give
identical handler results, so a client cannot choose `salaryId` or
`recordedBy` through the body. -/
theorem addSalary_reads_only_five_fields (store : Store) (sess : Option User)
    (now : Nat) (b1 b2 : ReqBody)
    (h1 : b1.employeeName = b2.employeeName) (h2 : b1.amount = b2.amount)
    (h3 : b1.type = b2.type) (h4 : b1.date = b2.date)
    (h5 : b1.notes = b2.notes) :
    addSalary store sess now b1 = addSalary store sess now b2 ∧
    addSalaryCore store sess now b1 = addSalaryCore store sess now b2 := by
  have hdoc : ∀ nm, mkSalaryDoc now b1 nm = mkSalaryDoc now b2 nm := by
    intro nm
    unfold mkSalaryDoc
    rw [h1, h2, h3, h4, h5]
  have hcore : addSalaryCore store sess now b1 =
      addSalaryCore store sess now b2 := by
    unfold addSalaryCore
    simp only [hdoc]
  exact ⟨by unfold addSalary; rw [hcore], hcore⟩

/-- Witness for C9: `bodyA` smuggles `salaryId`, `recordedBy`, `createdAt`
and an extra key next to `body0`'s five fields; results coincide. -/
theorem addSalary_reads_only_five_fields_witness :
    addSalary [] (some ⟨"Admin"⟩) 7 bodyA = addSalary [] (some ⟨"Admin"⟩) 7 body0 ∧
    addSalaryCore [] (some ⟨"Admin"⟩) 7 bodyA =
      addSalaryCore [] (some ⟨"Admin"⟩) 7 body0 :=
  addSalary_reads_only_five_fields [] (some ⟨"Admin"⟩) 7 bodyA body0
    rfl rfl rfl rfl rfl

/-- Claim C7: `connectDB` memoizes the connection. Once an attempt has
succeeded and `cached.conn` holds the handle, every further call returns
exactly that handle, leaves the cache untouched, and initiates zero new
connection attempts; and even before `cached.conn` is set, a cached
successful attempt (the promise itself) is awaited rather than a new
attempt being made — still zero new attempts. -/
theorem connectDB_memoized (env : ConnEnv) (st : Cached) (c : Conn) :
    (st.conn = some c → connectDB env st = (some c, st, 0)) ∧
    (st = { conn := none, promise := some (ConnOutcome.success c) } →
      env.mongoUri.isSome →
      connectDB env st =
        (some c, { conn := some c,
                   promise := some (ConnOutcome.success c) }, 0)) := by
  constructor
  · intro h
    simp [connectDB, h]
  · intro hst hu
    obtain ⟨uri, huri⟩ := Option.isSome_iff_exists.mp hu
    subst hst
    simp [connectDB, huri]

/-- Witness for C7: a warm cache returns the same handle with zero new
attempts, in both the handle-cached and promise-cached configurations. -/
theorem connectDB_memoized_witness :
    connectDB env0 { conn := some c0, promise := some (ConnOutcome.success c0) } =
      (some c0, { conn := some c0,
                  promise := some (ConnOutcome.success c0) }, 0) ∧
    connectDB env0 { conn := none, promise := some (ConnOutcome.success c0) } =
      (some c0, { conn := some c0,
                  promise := some (ConnOutcome.success c0) }, 0) :=
  ⟨(connectDB_memoized env0
      { conn := some c0, promise := some (ConnOutcome.success c0) } c0).1 rfl,
   (connectDB_memoized env0
      { conn := none, promise := some (ConnOutcome.success c0) } c0).2 rfl rfl⟩

/-- Claim C8: outside the Vercel context the guard forwards every request
unconditionally; in the Vercel context a request arriving with the
connection not established (`readyState ≠ 1`), and still not established
after waiting for an in-flight attempt, is answered 503 Setup Required and
never forwarded to the route handlers. -/
theorem dbGuard_spec (ready readyAfter : Nat) :
    dbGuard false ready readyAfter = GuardResult.forward ∧
    (ready ≠ 1 → (ready = 2 → readyAfter ≠ 1) →
      dbGuard true ready readyAfter = GuardResult.setupRequired503) := by
  constructor
  · rfl
  · intro h1 h2
    by_cases hr2 : ready = 2
    · have hra := h2 hr2
      subst hr2
      simp [dbGuard, hra]
    · simp [dbGuard, h1, hr2]

/-- Witness for C8: a cold Vercel request with `readyState = 0` is answered
503. -/
theorem dbGuard_spec_witness :
    dbGuard true 0 0 = GuardResult.setupRequired503 :=
  (dbGuard_spec 0 0).2 (by decide) (by decide)
